import Mathlib

/-
Verification development for the j2 command line template processor
(src/j2.py).  The tree-mode renderer (render_folder_template and its two
helpers render_file_name and render_file_template) is shallowly embedded
below.  The external Jinja2 template engine is modelled as an abstract
function from an environment configuration, a template name and a context
to either rendered text or a template error, exactly the interface the
code consumes.  Filesystem effects on the destination side are modelled
as an explicit event trace; fallibility of the destination filesystem
(mkdir, access, open) is modelled by a boolean oracle.
-/

namespace J2

/-- Errors raised by the template engine, as consumed by j2.py
(jinja2.exceptions TemplateNotFound and TemplateSyntaxError). -/
inductive TemplateErr where
  | notFound (name : String)
  | synErr (filename : String) (lineno : Nat) (message : String)
deriving DecidableEq

/-- Search path configuration of a jinja2 FileSystemLoader: the list of
directories searched, and the source encoding. -/
structure LoaderCfg where
  searchpath : List String
  encoding : String
deriving DecidableEq

/-- Configuration of a jinja2 Environment as constructed by j2.py: the
loader, the trim_blocks switch and the newline_sequence. -/
structure EnvCfg where
  loader : LoaderCfg
  trim_blocks : Bool
  newline_sequence : String
deriving DecidableEq

/-- Invocation-wide configuration of a j2 run: args.TRIM, args.TEMPLATEPATH
and the globals j2_linesep and j2_encoding. -/
structure J2Config where
  TRIM : Int
  TEMPLATEPATH : List String
  j2_linesep : String
  j2_encoding : String

/-- The abstract template engine: given an environment configuration, the
basename of the template handed to env.get_template, and the rendering
context, it either produces rendered text or fails with a template error.
The context type is abstract; j2.py passes its module globals plus locals
plus the binding env=os.environ. -/
def Engine (Ctx : Type) : Type :=
  EnvCfg → String → Ctx → Except TemplateErr String

/-- Path separator of the modelled (POSIX) host, os.sep. -/
def osSep : String := "/"

/-- Line separator of the modelled (POSIX) host, os.linesep. -/
def osLinesep : String := "\n"

/-- j2.py line 52: ignoredirs = set of common SCM folder names. -/
def ignoredirs : List String := [".git", ".hg", ".svn"]

/-- Observable events of a run: destination filesystem operations and
stderr error writes, plus the fatal process exit. -/
inductive Ev where
  | mkdir (path : String)
  | openW (path : String)
  | write (path : String) (data : String)
  | close (path : String)
  | err (msg : String)
  | exitFatal (code : Nat)
deriving DecidableEq

/-- Result of running a piece of the program: the event trace it produced,
tagged by whether the program continued (ok) or exited fatally (fatal). -/
inductive Run where
  | ok (events : List Ev)
  | fatal (events : List Ev)
deriving DecidableEq

/-- The events of a run, whether it completed or exited. -/
def Run.events : Run → List Ev
  | .ok es => es
  | .fatal es => es

/-- Whether the run completed without a fatal exit. -/
def Run.isOk : Run → Bool
  | .ok _ => true
  | .fatal _ => false

/-- Sequencing of runs: a fatal exit aborts everything after it. -/
def Run.seq : Run → Run → Run
  | .fatal es, _ => .fatal es
  | .ok es, .ok es2 => .ok (es ++ es2)
  | .ok es, .fatal es2 => .fatal (es ++ es2)

/-- ASCII lowercasing of one character, as done by re.IGNORECASE for the
pattern in j2.py line 562. -/
def lowerChar (c : Char) : Char :=
  if 65 ≤ c.toNat && c.toNat ≤ 90 then Char.ofNat (c.toNat + 32) else c

/-- Lowercasing of a string, character by character. -/
def lowerStr (s : String) : String := String.mk (s.data.map lowerChar)

/-- Boolean test that the string s ends with the string suffix. -/
def strEndsWith (s suffix : String) : Bool :=
  s.data.reverse.take suffix.data.length == suffix.data.reverse

/-- j2.py line 562: whether an entry name matches the naming-directive
suffix pattern, re.search with pattern backslash-dot-j2n-dollar under
re.IGNORECASE. -/
def endsWithJ2n (s : String) : Bool := strEndsWith (lowerStr s) ".j2n"

/-- j2.py render_file_name, lines 501-519.  The verbatim full path of the
directive is file_dir + os.sep + file_base; the FileSystemLoader is built
from dirname(file) alone with its default utf-8 encoding, the Environment
has trim_blocks hardcoded to 1 and newline_sequence j2_linesep.  On
success the rendered text is returned unchanged; TemplateNotFound and
TemplateSyntaxError write to stderr and exit(1). -/
def render_file_name {Ctx : Type} (cfg : J2Config) (eng : Engine Ctx)
    (ctx : Ctx) (file_dir file_base : String) : Except (List Ev) String :=
  let file := file_dir ++ osSep ++ file_base
  let envc : EnvCfg :=
    { loader := { searchpath := [file_dir], encoding := "utf-8" },
      trim_blocks := true, newline_sequence := cfg.j2_linesep }
  match eng envc file_base ctx with
  | Except.ok result => Except.ok result
  | Except.error (TemplateErr.notFound _) =>
      Except.error
        [Ev.err ("j2: Command line error TemplateNotFound: Can\x27t open template " ++ file ++ "\n"),
         Ev.exitFatal 1]
  | Except.error (TemplateErr.synErr f l m) =>
      Except.error
        [Ev.err ("j2: Command line error TemplateSyntaxError: " ++ f ++ "(" ++ toString l ++ ") " ++ m ++ "\n"),
         Ev.err (f ++ "(" ++ toString l ++ "): j2 error TemplateSyntaxError:  " ++ m ++ "\n"),
         Ev.exitFatal 1]

/-- j2.py render_file_template, lines 522-545.  The template search path is
dirname(file) followed by args.TEMPLATEPATH, the loader uses j2_encoding,
trim_blocks is args.TRIM == 1 and newline_sequence is j2_linesep.  On
success the rendered text plus one os.linesep is written to the already
opened output (modelled by its destination path fdest); the two template
error kinds write to stderr and exit(1). -/
def render_file_template {Ctx : Type} (cfg : J2Config) (eng : Engine Ctx)
    (ctx : Ctx) (file_dir file_base : String) (fdest : String) : Run :=
  let templatepath := file_dir :: cfg.TEMPLATEPATH
  let envc : EnvCfg :=
    { loader := { searchpath := templatepath, encoding := cfg.j2_encoding },
      trim_blocks := cfg.TRIM == 1, newline_sequence := cfg.j2_linesep }
  match eng envc file_base ctx with
  | Except.ok result => Run.ok [Ev.write fdest (result ++ osLinesep)]
  | Except.error (TemplateErr.notFound nm) =>
      Run.fatal
        [Ev.err ("j2: Command line error TemplateNotFound: Can\x27t open template " ++ nm ++ osLinesep),
         Ev.exitFatal 1]
  | Except.error (TemplateErr.synErr f l m) =>
      Run.fatal
        [Ev.err ("j2: Command line error TemplateSyntaxError: " ++ f ++ "(" ++ toString l ++ ") " ++ m ++ osLinesep),
         Ev.err (f ++ "(" ++ toString l ++ "): j2 error TemplateSyntaxError:  " ++ m ++ osLinesep),
         Ev.exitFatal 1]

mutual
/-- A source filesystem entry: a file, or a directory with its listing. -/
inductive Entry where
  | file (name : String)
  | dir (name : String) (children : EntryList)
/-- A source directory listing, in the order reported by os.listdir. -/
inductive EntryList where
  | nil
  | cons (head : Entry) (tail : EntryList)
end

/-- The name of a source entry. -/
def Entry.nameOf : Entry → String
  | .file n => n
  | .dir n _ => n

/-- Whether the listing contains an entry with exactly the given name:
models the os.path.exists checks on folder + os.sep + item + dot-j2n in
j2.py lines 569 and 576 (exact, case sensitive name). -/
def existsEntryL (l : EntryList) (n : String) : Bool :=
  match l with
  | .nil => false
  | .cons e rest => (e.nameOf == n) || existsEntryL rest n

/-- The fallibility oracle for the destination filesystem: whether a path
exists, whether os.mkdir succeeds there, whether os.access reports it
writable, and whether open for binary writing succeeds. -/
structure DestFS where
  pathExists : String → Bool
  mkdirOk : String → Bool
  writable : String → Bool
  openOk : String → Bool

/-- j2.py lines 552-560: ensure the destination folder exists (creating it
when absent, with a fatal IOError on failure) and is writable (fatal
IOError otherwise). -/
def ensureDest (fs : DestFS) (dest : String) : Run :=
  let step1 : Run :=
    if fs.pathExists dest then Run.ok []
    else if fs.mkdirOk dest then Run.ok [Ev.mkdir dest]
    else Run.fatal
      [Ev.err ("j2: Command line error IOError: Can\x27t create folder " ++ dest ++ " to render output to" ++ osLinesep),
       Ev.exitFatal 1]
  Run.seq step1
    (if fs.writable dest then Run.ok []
     else Run.fatal
       [Ev.err ("j2: Command line error IOError: Can\x27t open folder " ++ dest ++ " to render output to" ++ osLinesep),
        Ev.exitFatal 1])

mutual
/-- j2.py lines 561-587, the loop body of render_folder_template iterating
os.listdir(folder).  sib is the full listing of folder (consulted by the
os.path.exists companion checks); todo is the remainder of the iteration. -/
def renderItems {Ctx : Type} (cfg : J2Config) (eng : Engine Ctx) (ctx : Ctx)
    (fs : DestFS) (folder dest : String) (sib : EntryList) (todo : EntryList) : Run :=
  match todo with
  | .nil => Run.ok []
  | .cons e rest =>
      Run.seq (renderItem cfg eng ctx fs folder dest sib e)
        (renderItems cfg eng ctx fs folder dest sib rest)

/-- Processing of one directory entry, j2.py lines 562-587.  Line 562
skips entries matching the naming-directive suffix pattern.  Directories
(lines 564-573): SCM folders in ignoredirs are skipped, otherwise the
destination name comes from the companion j2n render when present and the
walk recurses (the recursive render_folder_template call is inlined here:
its destination handling is ensureDest followed by the listing loop).
Files (lines 574-587): the destination name likewise comes from the
companion j2n render when present, the destination file is opened for
binary writing (fatal IOError on failure), rendered into, and closed. -/
def renderItem {Ctx : Type} (cfg : J2Config) (eng : Engine Ctx) (ctx : Ctx)
    (fs : DestFS) (folder dest : String) (sib : EntryList) (e : Entry) : Run :=
  if endsWithJ2n e.nameOf then Run.ok []
  else
    match e with
    | Entry.file n =>
        match (if existsEntryL sib (n ++ ".j2n")
               then render_file_name cfg eng ctx folder (n ++ ".j2n")
               else Except.ok n) with
        | Except.error es => Run.fatal es
        | Except.ok nm =>
            let fdest := dest ++ osSep ++ nm
            if fs.openOk fdest then
              Run.seq
                (Run.seq (Run.ok [Ev.openW fdest])
                  (render_file_template cfg eng ctx folder n fdest))
                (Run.ok [Ev.close fdest])
            else Run.fatal
              [Ev.err ("j2: Command line error IOError: Can\x27t open file " ++ fdest ++ " to render output to" ++ osLinesep),
               Ev.exitFatal 1]
    | Entry.dir n ch =>
        if ignoredirs.contains n then Run.ok []
        else
          match (if existsEntryL sib (n ++ ".j2n")
                 then render_file_name cfg eng ctx folder (n ++ ".j2n")
                 else Except.ok n) with
          | Except.error es => Run.fatal es
          | Except.ok nm =>
              Run.seq (ensureDest fs (dest ++ osSep ++ nm))
                (renderItems cfg eng ctx fs (folder ++ osSep ++ n)
                  (dest ++ osSep ++ nm) ch ch)
end

/-- j2.py render_folder_template, lines 548-587: ensure the destination
folder, then process the source listing (entries plays the role of
os.listdir(folder), in filesystem order). -/
def render_folder_template {Ctx : Type} (cfg : J2Config) (eng : Engine Ctx)
    (ctx : Ctx) (fs : DestFS) (folder : String) (entries : EntryList)
    (dest : String) : Run :=
  Run.seq (ensureDest fs dest)
    (renderItems cfg eng ctx fs folder dest entries entries)

/-- A destination filesystem in its expected clean state: nothing exists
yet, directory creation succeeds, created directories are writable and
destination files open fine. -/
def freshFS : DestFS :=
  { pathExists := fun _ => false, mkdirOk := fun _ => true,
    writable := fun _ => true, openOk := fun _ => true }

/-- Default invocation configuration: TRIM defaults to 1, TEMPLATEPATH to
the empty list, j2_linesep to os.linesep and j2_encoding to utf-8. -/
def cfg0 : J2Config :=
  { TRIM := 1, TEMPLATEPATH := [], j2_linesep := "\n", j2_encoding := "utf-8" }

/-- Number of trailing newline characters of a string (the modelled host
line terminator is the single character newline). -/
def trailingNL (s : String) : Nat :=
  (s.data.reverse.takeWhile (fun c => c == '\n')).length

/-- Claim-side helper: the string with all trailing line-terminator
characters removed. -/
def rstripNewlines (s : String) : String :=
  String.mk ((s.data.reverse.dropWhile (fun c => c == '\n' || c == '\r')).reverse)

/-- Joining of a search path list with colons, for the probe engine. -/
def joinPaths : List String → String
  | [] => ""
  | [s] => s
  | s :: rest => s ++ ":" ++ joinPaths rest

/-- A probe engine whose output records the search path and trim switch of
the environment it was invoked with. -/
def engProbe : Engine Unit := fun envc _ _ =>
  Except.ok (joinPaths envc.loader.searchpath ++ "|" ++
    (if envc.trim_blocks then "T" else "F"))

/-- An engine that renders every template to the fixed text out. -/
def engConst : Engine Unit := fun _ _ _ => Except.ok "out"

/-- An engine rendering the naming directive item.txt.j2n to text ending
in a newline, and everything else to the word content. -/
def engC1 : Engine Unit := fun _ name _ =>
  if name == "item.txt.j2n" then Except.ok "widget\n" else Except.ok "content"

/-- Source listing with one file and its companion naming directive. -/
def treeC1 : EntryList :=
  EntryList.cons (Entry.file "item.txt")
    (EntryList.cons (Entry.file "item.txt.j2n") EntryList.nil)

/-- Invocation configuration with the trim switch off and one extra
template search directory. -/
def cfgC6 : J2Config :=
  { TRIM := 0, TEMPLATEPATH := ["/extra"], j2_linesep := "\n", j2_encoding := "utf-8" }

/-- Engine whose output depends on the trim switch of the environment. -/
def engW1 : Engine Unit := fun envc _ _ =>
  Except.ok (if envc.trim_blocks then "A" else "B")

/-- Engine with constant output A. -/
def engW2 : Engine Unit := fun _ _ _ => Except.ok "A"

/-- Engine failing every render with a template syntax error. -/
def engSyn : Engine Unit := fun _ _ _ =>
  Except.error (TemplateErr.synErr "/src/t" 3 "bad tag")

/-- Engine failing every render with template not found. -/
def engNF : Engine Unit := fun _ _ _ =>
  Except.error (TemplateErr.notFound "inc.j2t")

/-- A destination filesystem oracle on which nothing exists and directory
creation fails everywhere. -/
def brokenFS : DestFS :=
  { pathExists := fun _ => false, mkdirOk := fun _ => false,
    writable := fun _ => false, openOk := fun _ => false }

mutual
/-- Whether a source entry contains no naming directive anywhere below
it. -/
def entryNoDirective : Entry → Bool
  | .file _ => true
  | .dir _ ch => listNoDirective ch ch
/-- Whether no entry of todo has a companion naming directive among its
siblings sib, recursively in subdirectories. -/
def listNoDirective (sib : EntryList) : EntryList → Bool
  | .nil => true
  | .cons e rest =>
      !existsEntryL sib (e.nameOf ++ ".j2n") && entryNoDirective e &&
        listNoDirective sib rest
end

/-- A source tree contains no naming directives: no entry has a sibling
named after it with the dot j2n suffix appended, at any depth. -/
def noDirectivesL (l : EntryList) : Bool := listNoDirective l l

mutual
/-- Expected destination directory paths for one source entry when every
entry keeps its own name: directories not matched by the naming-suffix
pattern or the ignore set are mirrored, recursively. -/
def mirrorDirsE (dest : String) : Entry → List String
  | .file _ => []
  | .dir n ch =>
      if endsWithJ2n n || ignoredirs.contains n then []
      else (dest ++ osSep ++ n) :: mirrorDirsL (dest ++ osSep ++ n) ch
/-- Expected destination directory paths for a source listing. -/
def mirrorDirsL (dest : String) : EntryList → List String
  | .nil => []
  | .cons e rest => mirrorDirsE dest e ++ mirrorDirsL dest rest
end

mutual
/-- Expected destination file paths for one source entry when every entry
keeps its own name. -/
def mirrorFilesE (dest : String) : Entry → List String
  | .file n => if endsWithJ2n n then [] else [dest ++ osSep ++ n]
  | .dir n ch =>
      if endsWithJ2n n || ignoredirs.contains n then []
      else mirrorFilesL (dest ++ osSep ++ n) ch
/-- Expected destination file paths for a source listing. -/
def mirrorFilesL (dest : String) : EntryList → List String
  | .nil => []
  | .cons e rest => mirrorFilesE dest e ++ mirrorFilesL dest rest
end

/-- The destination directories created in a trace, in order. -/
def destDirs : List Ev → List String
  | [] => []
  | Ev.mkdir p :: rest => p :: destDirs rest
  | Ev.openW _ :: rest => destDirs rest
  | Ev.write _ _ :: rest => destDirs rest
  | Ev.close _ :: rest => destDirs rest
  | Ev.err _ :: rest => destDirs rest
  | Ev.exitFatal _ :: rest => destDirs rest

/-- The destination files opened in a trace, in order. -/
def destFiles : List Ev → List String
  | [] => []
  | Ev.mkdir _ :: rest => destFiles rest
  | Ev.openW p :: rest => p :: destFiles rest
  | Ev.write _ _ :: rest => destFiles rest
  | Ev.close _ :: rest => destFiles rest
  | Ev.err _ :: rest => destFiles rest
  | Ev.exitFatal _ :: rest => destFiles rest

/-- Whether an entry is a directory whose name is in the ignore set. -/
def ignoredIsDir : Entry → Bool
  | .file _ => false
  | .dir n _ => ignoredirs.contains n

mutual
/-- An entry with every ignored directory removed from the listings below
it. -/
def pruneE : Entry → Entry
  | .file n => .file n
  | .dir n ch => .dir n (pruneL ch)
/-- A listing with every ignored directory removed, at all depths. -/
def pruneL : EntryList → EntryList
  | .nil => .nil
  | .cons e rest =>
      if ignoredIsDir e then pruneL rest
      else .cons (pruneE e) (pruneL rest)
end

/-- An engine rendering every template to the text dot git. -/
def engGit : Engine Unit := fun _ _ _ => Except.ok ".git"

/-- Source listing with one directory and a companion naming directive
for it. -/
def treeC3 : EntryList :=
  EntryList.cons (Entry.dir "d" EntryList.nil)
    (EntryList.cons (Entry.file "d.j2n") EntryList.nil)

/-- A directive-free source listing with a file, a subdirectory holding a
file, an ignored SCM directory holding a file, and an orphan
suffix-matching entry. -/
def treeC2 : EntryList :=
  EntryList.cons (Entry.file "a.txt")
    (EntryList.cons (Entry.dir "sub" (EntryList.cons (Entry.file "b.txt") EntryList.nil))
      (EntryList.cons (Entry.dir ".git" (EntryList.cons (Entry.file "c") EntryList.nil))
        (EntryList.cons (Entry.file "x.j2n") EntryList.nil)))

/- ===================== theorems ===================== -/

theorem strData_append (a b : String) : (a ++ b).data = a.data ++ b.data := by
  cases a; cases b; rfl

theorem Run.seq_fatal (es : List Ev) (r : Run) :
    Run.seq (Run.fatal es) r = Run.fatal es := rfl

theorem Run.seq_ok_nil (r : Run) : Run.seq (Run.ok []) r = r := by
  cases r <;> rfl

theorem Run.events_seq_ok (es : List Ev) (r : Run) :
    (Run.seq (Run.ok es) r).events = es ++ r.events := by
  cases r <;> rfl

theorem Run.isOk_seq_ok (es : List Ev) (r : Run) :
    (Run.seq (Run.ok es) r).isOk = r.isOk := by
  cases r <;> rfl

/-- C9: tree rendering is deterministic in the Context: the model of the
tree walker is a pure function of the configuration, the engine with its
context, the source tree and the destination filesystem state, so two
runs over unchanged inputs produce identical event traces byte for
byte. -/
theorem c9_deterministic {Ctx : Type} (cfg : J2Config) (eng : Engine Ctx)
    (ctx : Ctx) (fs : DestFS) (folder : String) (entries : EntryList)
    (dest : String) (r1 r2 : Run)
    (h1 : r1 = render_folder_template cfg eng ctx fs folder entries dest)
    (h2 : r2 = render_folder_template cfg eng ctx fs folder entries dest) :
    r1 = r2 := h1.trans h2.symm

theorem c9_witness :
    render_folder_template cfg0 engConst () freshFS "/src"
        (EntryList.cons (Entry.file "a.txt") EntryList.nil) "/dst" =
      render_folder_template cfg0 engConst () freshFS "/src"
        (EntryList.cons (Entry.file "a.txt") EntryList.nil) "/dst" :=
  c9_deterministic cfg0 engConst () freshFS "/src"
    (EntryList.cons (Entry.file "a.txt") EntryList.nil) "/dst" _ _ rfl rfl

/-- C5: destination handling of the tree walker: an absent destination is
created (the mkdir event appears); a failed creation is fatal with an
IOError message naming the destination; an unwritable destination is
fatal with an IOError message naming the destination; otherwise the walk
proceeds to iterate the source listing. -/
theorem c5_dest_handling {Ctx : Type} (cfg : J2Config) (eng : Engine Ctx)
    (ctx : Ctx) (fs : DestFS) (folder : String) (entries : EntryList)
    (dest : String) :
    (fs.pathExists dest = false → fs.mkdirOk dest = false →
      render_folder_template cfg eng ctx fs folder entries dest =
        Run.fatal
          [Ev.err ("j2: Command line error IOError: Can\x27t create folder " ++ dest ++ " to render output to" ++ osLinesep),
           Ev.exitFatal 1]) ∧
    (fs.pathExists dest = false → fs.mkdirOk dest = true →
      Ev.mkdir dest ∈ (render_folder_template cfg eng ctx fs folder entries dest).events) ∧
    (fs.pathExists dest = true → fs.writable dest = false →
      render_folder_template cfg eng ctx fs folder entries dest =
        Run.fatal
          [Ev.err ("j2: Command line error IOError: Can\x27t open folder " ++ dest ++ " to render output to" ++ osLinesep),
           Ev.exitFatal 1]) ∧
    (fs.pathExists dest = false → fs.mkdirOk dest = true → fs.writable dest = false →
      render_folder_template cfg eng ctx fs folder entries dest =
        Run.fatal
          [Ev.mkdir dest,
           Ev.err ("j2: Command line error IOError: Can\x27t open folder " ++ dest ++ " to render output to" ++ osLinesep),
           Ev.exitFatal 1]) ∧
    (fs.writable dest = true → (fs.pathExists dest = true ∨ fs.mkdirOk dest = true) →
      render_folder_template cfg eng ctx fs folder entries dest =
        Run.seq (Run.ok (if fs.pathExists dest then [] else [Ev.mkdir dest]))
          (renderItems cfg eng ctx fs folder dest entries entries)) := by
  refine ⟨?_, ?_, ?_, ?_, ?_⟩
  · intro h1 h2
    simp [render_folder_template, ensureDest, h1, h2, Run.seq]
  · intro h1 h2
    unfold render_folder_template ensureDest
    generalize renderItems cfg eng ctx fs folder dest entries entries = r
    cases hw : fs.writable dest <;> cases r <;>
      simp [h1, h2, hw, Run.seq, Run.events]
  · intro h1 h2
    simp [render_folder_template, ensureDest, h1, h2, Run.seq]
  · intro h1 h2 h3
    simp [render_folder_template, ensureDest, h1, h2, h3, Run.seq]
  · intro h1 h2
    have he : ensureDest fs dest =
        Run.ok (if fs.pathExists dest then [] else [Ev.mkdir dest]) := by
      cases hp : fs.pathExists dest
      · have hm : fs.mkdirOk dest = true := by
          rcases h2 with h | h
          · rw [hp] at h; exact absurd h (by simp)
          · exact h
        simp [ensureDest, hp, hm, h1, Run.seq]
      · simp [ensureDest, hp, h1, Run.seq]
    unfold render_folder_template
    rw [he]

theorem c5_witness :
    render_folder_template cfg0 engConst () brokenFS "/src" EntryList.nil "/dst" =
      Run.fatal
        [Ev.err ("j2: Command line error IOError: Can\x27t create folder " ++ "/dst" ++ " to render output to" ++ osLinesep),
         Ev.exitFatal 1] :=
  (c5_dest_handling cfg0 engConst () brokenFS "/src" EntryList.nil "/dst").1 rfl rfl

/-- C7: a source entry whose name matches the naming-directive suffix
pattern (dot j2n at end of name, case-insensitively) is skipped by the
tree walker: processing it yields no events at all, and iterating a
listing starting with it is the same as iterating the rest. -/
theorem c7_suffix_entries_skipped {Ctx : Type} (cfg : J2Config)
    (eng : Engine Ctx) (ctx : Ctx) (fs : DestFS) (folder dest : String)
    (sib : EntryList) (e : Entry) (rest : EntryList)
    (h : endsWithJ2n e.nameOf = true) :
    renderItem cfg eng ctx fs folder dest sib e = Run.ok [] ∧
    renderItems cfg eng ctx fs folder dest sib (EntryList.cons e rest) =
      renderItems cfg eng ctx fs folder dest sib rest := by
  have hi : renderItem cfg eng ctx fs folder dest sib e = Run.ok [] := by
    unfold renderItem
    simp [h]
  exact ⟨hi, by simp [renderItems, hi, Run.seq_ok_nil]⟩

theorem c7_witness :
    endsWithJ2n (Entry.nameOf (Entry.file "a.J2N")) = true ∧
    renderItem cfg0 engConst () freshFS "/src" "/dst" EntryList.nil (Entry.file "a.J2N") = Run.ok [] :=
  ⟨by decide,
   (c7_suffix_entries_skipped cfg0 engConst () freshFS "/src" "/dst"
      EntryList.nil (Entry.file "a.J2N") EntryList.nil (by decide)).1⟩

/-- C8: when the engine raises a template syntax error during a render,
both for a naming directive and for a content file, the run terminates
fatally and exactly two messages go to the error channel: the
invocation-level message and the source-location-level file(line): message
diagnostic, both carrying the template path, line number and message. -/
theorem c8_syntax_error_reported_twice {Ctx : Type} (cfg : J2Config)
    (eng : Engine Ctx) (ctx : Ctx) (dir base fdest f : String) (l : Nat)
    (m : String) :
    (eng { loader := { searchpath := [dir], encoding := "utf-8" },
           trim_blocks := true, newline_sequence := cfg.j2_linesep } base ctx =
        Except.error (TemplateErr.synErr f l m) →
      render_file_name cfg eng ctx dir base =
        Except.error
          [Ev.err ("j2: Command line error TemplateSyntaxError: " ++ f ++ "(" ++ toString l ++ ") " ++ m ++ "\n"),
           Ev.err (f ++ "(" ++ toString l ++ "): j2 error TemplateSyntaxError:  " ++ m ++ "\n"),
           Ev.exitFatal 1]) ∧
    (eng { loader := { searchpath := dir :: cfg.TEMPLATEPATH, encoding := cfg.j2_encoding },
           trim_blocks := cfg.TRIM == 1, newline_sequence := cfg.j2_linesep } base ctx =
        Except.error (TemplateErr.synErr f l m) →
      render_file_template cfg eng ctx dir base fdest =
        Run.fatal
          [Ev.err ("j2: Command line error TemplateSyntaxError: " ++ f ++ "(" ++ toString l ++ ") " ++ m ++ osLinesep),
           Ev.err (f ++ "(" ++ toString l ++ "): j2 error TemplateSyntaxError:  " ++ m ++ osLinesep),
           Ev.exitFatal 1]) := by
  constructor
  · intro h
    simp [render_file_name, h]
  · intro h
    simp [render_file_template, h]

theorem render_file_template_no_openW {Ctx : Type} (cfg : J2Config)
    (eng : Engine Ctx) (ctx : Ctx) (dir base fdest p : String) :
    Ev.openW p ∉ (render_file_template cfg eng ctx dir base fdest).events := by
  simp only [render_file_template]
  cases h : eng { loader := { searchpath := dir :: cfg.TEMPLATEPATH, encoding := cfg.j2_encoding },
                  trim_blocks := cfg.TRIM == 1, newline_sequence := cfg.j2_linesep } base ctx with
  | ok r => simp [Run.events]
  | error e => cases e <;> simp [Run.events]

/-- C10: for a content file entry the destination file is opened for
binary writing before its template is rendered; when the render then
fails with a template error, the run is fatal and its trace opens the
destination file first and never writes to it or closes it, so the
(empty, truncated) destination file exists on disk at exit. -/
theorem c10_open_before_render {Ctx : Type} (cfg : J2Config) (eng : Engine Ctx)
    (ctx : Ctx) (fs : DestFS) (folder dest : String) (sib : EntryList)
    (n : String) (terr : TemplateErr)
    (hsuf : endsWithJ2n n = false)
    (hcomp : existsEntryL sib (n ++ ".j2n") = false)
    (hopen : fs.openOk (dest ++ osSep ++ n) = true)
    (herr : eng { loader := { searchpath := folder :: cfg.TEMPLATEPATH, encoding := cfg.j2_encoding },
                  trim_blocks := cfg.TRIM == 1, newline_sequence := cfg.j2_linesep } n ctx =
            Except.error terr) :
    ∃ tail,
      renderItem cfg eng ctx fs folder dest sib (Entry.file n) =
        Run.fatal (Ev.openW (dest ++ osSep ++ n) :: tail) ∧
      (∀ d, Ev.write (dest ++ osSep ++ n) d ∉ tail) ∧
      Ev.close (dest ++ osSep ++ n) ∉ tail := by
  have hu : renderItem cfg eng ctx fs folder dest sib (Entry.file n) =
      Run.seq (Run.seq (Run.ok [Ev.openW (dest ++ osSep ++ n)])
        (render_file_template cfg eng ctx folder n (dest ++ osSep ++ n)))
        (Run.ok [Ev.close (dest ++ osSep ++ n)]) := by
    unfold renderItem
    simp [Entry.nameOf, hsuf, hcomp, hopen]
  cases terr with
  | notFound nm =>
      have ht : render_file_template cfg eng ctx folder n (dest ++ osSep ++ n) =
          Run.fatal
            [Ev.err ("j2: Command line error TemplateNotFound: Can\x27t open template " ++ nm ++ osLinesep),
             Ev.exitFatal 1] := by
        simp [render_file_template, herr]
      refine ⟨[Ev.err ("j2: Command line error TemplateNotFound: Can\x27t open template " ++ nm ++ osLinesep),
               Ev.exitFatal 1], ?_, ?_, ?_⟩
      · rw [hu, ht]; rfl
      · intro d; simp
      · simp
  | synErr f l m =>
      have ht : render_file_template cfg eng ctx folder n (dest ++ osSep ++ n) =
          Run.fatal
            [Ev.err ("j2: Command line error TemplateSyntaxError: " ++ f ++ "(" ++ toString l ++ ") " ++ m ++ osLinesep),
             Ev.err (f ++ "(" ++ toString l ++ "): j2 error TemplateSyntaxError:  " ++ m ++ osLinesep),
             Ev.exitFatal 1] := by
        simp [render_file_template, herr]
      refine ⟨[Ev.err ("j2: Command line error TemplateSyntaxError: " ++ f ++ "(" ++ toString l ++ ") " ++ m ++ osLinesep),
               Ev.err (f ++ "(" ++ toString l ++ "): j2 error TemplateSyntaxError:  " ++ m ++ osLinesep),
               Ev.exitFatal 1], ?_, ?_, ?_⟩
      · rw [hu, ht]; rfl
      · intro d; simp
      · simp

theorem c10_witness :
    ∃ tail,
      renderItem cfg0 engNF () freshFS "/src" "/dst" EntryList.nil (Entry.file "a.txt") =
        Run.fatal (Ev.openW ("/dst" ++ osSep ++ "a.txt") :: tail) ∧
      (∀ d, Ev.write ("/dst" ++ osSep ++ "a.txt") d ∉ tail) ∧
      Ev.close ("/dst" ++ osSep ++ "a.txt") ∉ tail :=
  c10_open_before_render cfg0 engNF () freshFS "/src" "/dst" EntryList.nil
    "a.txt" (TemplateErr.notFound "inc.j2t") (by decide) (by decide) rfl rfl

theorem trailingNL_append_nl (s : String) :
    trailingNL (s ++ osLinesep) = trailingNL s + 1 := by
  unfold trailingNL osLinesep
  rw [strData_append]
  have h1 : ("\n" : String).data = ['\n'] := rfl
  rw [h1, List.reverse_append]
  simp [List.takeWhile_cons]

/-- C4 counterexample: a template whose rendered output already ends with
a line terminator produces a destination file ending with two
terminators, not exactly one. -/
theorem c4_counterexample :
    render_file_template cfg0 (fun _ _ _ => Except.ok "a\n") () "/src" "f.txt" "/dst/f.txt" =
      Run.ok [Ev.write "/dst/f.txt" "a\n\n"] ∧
    trailingNL "a\n\n" = 2 := by decide

/-- C4 (amended): the bytes written for a content file are the rendered
text with exactly one platform line terminator appended, so the trailing
terminator count of the output is one more than that of the rendered
text; the output ends with exactly one terminator only when the rendered
text itself ends with none. -/
theorem c4_one_terminator_appended {Ctx : Type} (cfg : J2Config)
    (eng : Engine Ctx) (ctx : Ctx) (dir base fdest result : String)
    (h : eng { loader := { searchpath := dir :: cfg.TEMPLATEPATH, encoding := cfg.j2_encoding },
               trim_blocks := cfg.TRIM == 1, newline_sequence := cfg.j2_linesep } base ctx =
         Except.ok result) :
    render_file_template cfg eng ctx dir base fdest =
      Run.ok [Ev.write fdest (result ++ osLinesep)] ∧
    trailingNL (result ++ osLinesep) = trailingNL result + 1 ∧
    (trailingNL result = 0 → trailingNL (result ++ osLinesep) = 1) := by
  refine ⟨by simp [render_file_template, h], trailingNL_append_nl result, ?_⟩
  intro h0
  rw [trailingNL_append_nl, h0]

theorem c4_witness :
    render_file_template cfg0 engConst () "/src" "f" "/dst/f" =
      Run.ok [Ev.write "/dst/f" ("out" ++ osLinesep)] :=
  (c4_one_terminator_appended cfg0 engConst () "/src" "f" "/dst/f" "out" rfl).1

/-- C1 counterexample: with a naming directive rendering to text that
ends in a newline, the destination entry is created under the verbatim
rendered text (newline included), not under the trailing-terminator
stripped text the claim predicts. -/
theorem c1_counterexample :
    rstripNewlines "widget\n" = "widget" ∧
    render_folder_template cfg0 engC1 () freshFS "/src" treeC1 "/dst" =
      Run.ok [Ev.mkdir "/dst", Ev.openW "/dst/widget\n",
              Ev.write "/dst/widget\n" "content\n", Ev.close "/dst/widget\n"] ∧
    Ev.openW "/dst/widget" ∉
      (render_folder_template cfg0 engC1 () freshFS "/src" treeC1 "/dst").events := by
  decide

/-- C1 (amended): for a file entry with a sibling naming directive, the
destination file is opened under the name obtained by rendering that
directive with the current Context, used verbatim (the walker performs no
stripping of the rendered text), and under no other name. -/
theorem c1_rendered_name_used_verbatim {Ctx : Type} (cfg : J2Config)
    (eng : Engine Ctx) (ctx : Ctx) (fs : DestFS) (folder dest : String)
    (sib : EntryList) (n X : String)
    (hsuf : endsWithJ2n n = false)
    (hcomp : existsEntryL sib (n ++ ".j2n") = true)
    (heng : eng { loader := { searchpath := [folder], encoding := "utf-8" },
                  trim_blocks := true, newline_sequence := cfg.j2_linesep } (n ++ ".j2n") ctx =
            Except.ok X)
    (hopen : fs.openOk (dest ++ osSep ++ X) = true) :
    (∃ tail, (renderItem cfg eng ctx fs folder dest sib (Entry.file n)).events =
        Ev.openW (dest ++ osSep ++ X) :: tail) ∧
    (∀ p, Ev.openW p ∈ (renderItem cfg eng ctx fs folder dest sib (Entry.file n)).events →
      p = dest ++ osSep ++ X) := by
  have hn : render_file_name cfg eng ctx folder (n ++ ".j2n") = Except.ok X := by
    simp [render_file_name, heng]
  have hu : renderItem cfg eng ctx fs folder dest sib (Entry.file n) =
      Run.seq (Run.seq (Run.ok [Ev.openW (dest ++ osSep ++ X)])
        (render_file_template cfg eng ctx folder n (dest ++ osSep ++ X)))
        (Run.ok [Ev.close (dest ++ osSep ++ X)]) := by
    unfold renderItem
    simp [Entry.nameOf, hsuf, hcomp, hn, hopen]
  have hno := render_file_template_no_openW cfg eng ctx folder n (dest ++ osSep ++ X)
  rw [hu]
  cases htf : render_file_template cfg eng ctx folder n (dest ++ osSep ++ X) with
  | ok es =>
      rw [htf] at hno
      constructor
      · exact ⟨es ++ [Ev.close (dest ++ osSep ++ X)], by simp [Run.seq, Run.events]⟩
      · intro p hp
        simp [Run.seq, Run.events] at hp
        rcases hp with hp | hp
        · exact hp
        · exact absurd hp (by simpa [Run.events] using hno p)
  | fatal es =>
      rw [htf] at hno
      constructor
      · exact ⟨es, by simp [Run.seq, Run.events]⟩
      · intro p hp
        simp [Run.seq, Run.events] at hp
        rcases hp with hp | hp
        · exact hp
        · exact absurd hp (by simpa [Run.events] using hno p)

theorem c1_witness :
    ∃ tail,
      (renderItem cfg0 engC1 () freshFS "/src" "/dst" treeC1 (Entry.file "item.txt")).events =
        Ev.openW ("/dst" ++ osSep ++ "widget\n") :: tail :=
  (c1_rendered_name_used_verbatim cfg0 engC1 () freshFS "/src" "/dst" treeC1
    "item.txt" "widget\n" (by decide) (by decide) rfl rfl).1

/-- C6 counterexample: with the invocation trim switch off and one extra
search directory configured, a naming-directive render observes a search
path holding only the containing directory and the trim switch on, while
the contract used for content files would show the appended search path
and the trim switch off. -/
theorem c6_counterexample :
    render_file_name cfgC6 engProbe () "/src" "x.j2n" = Except.ok "/src|T" ∧
    engProbe { loader := { searchpath := "/src" :: cfgC6.TEMPLATEPATH, encoding := cfgC6.j2_encoding },
               trim_blocks := cfgC6.TRIM == 1, newline_sequence := cfgC6.j2_linesep } "x.j2n" () =
      Except.ok "/src:/extra|F" ∧
    ("/src|T" : String) ≠ "/src:/extra|F" :=
  ⟨rfl, rfl, by decide⟩

/-- C6 (amended): a naming-directive render depends on the engine only
through its behaviour at an environment whose search path is solely the
directive's containing directory (the caller-supplied extra search path
list is not appended) and whose whitespace-trim switch is hardcoded on,
with the invocation-wide line-ending convention; a content render instead
uses the containing directory followed by the extra search paths and the
invocation-wide trim switch, with the same line-ending convention. -/
theorem c6_naming_render_config {Ctx : Type} (cfg : J2Config)
    (e1 e2 : Engine Ctx) (ctx : Ctx) (dir base fdest : String) :
    (e1 { loader := { searchpath := [dir], encoding := "utf-8" },
          trim_blocks := true, newline_sequence := cfg.j2_linesep } base ctx =
       e2 { loader := { searchpath := [dir], encoding := "utf-8" },
            trim_blocks := true, newline_sequence := cfg.j2_linesep } base ctx →
      render_file_name cfg e1 ctx dir base = render_file_name cfg e2 ctx dir base) ∧
    (e1 { loader := { searchpath := dir :: cfg.TEMPLATEPATH, encoding := cfg.j2_encoding },
          trim_blocks := cfg.TRIM == 1, newline_sequence := cfg.j2_linesep } base ctx =
       e2 { loader := { searchpath := dir :: cfg.TEMPLATEPATH, encoding := cfg.j2_encoding },
            trim_blocks := cfg.TRIM == 1, newline_sequence := cfg.j2_linesep } base ctx →
      render_file_template cfg e1 ctx dir base fdest =
        render_file_template cfg e2 ctx dir base fdest) := by
  constructor
  · intro h
    simp [render_file_name, h]
  · intro h
    simp [render_file_template, h]

theorem c6_witness :
    render_file_name cfg0 engW1 () "/d" "b" = render_file_name cfg0 engW2 () "/d" "b" :=
  (c6_naming_render_config cfg0 engW1 engW2 () "/d" "b" "/o").1 rfl

theorem c8_witness :
    render_file_name cfg0 engSyn () "/src" "x.j2n" =
      Except.error
        [Ev.err ("j2: Command line error TemplateSyntaxError: " ++ "/src/t" ++ "(" ++ toString 3 ++ ") " ++ "bad tag" ++ "\n"),
         Ev.err ("/src/t" ++ "(" ++ toString 3 ++ "): j2 error TemplateSyntaxError:  " ++ "bad tag" ++ "\n"),
         Ev.exitFatal 1] :=
  (c8_syntax_error_reported_twice cfg0 engSyn () "/src" "x.j2n" "/dst/x" "/src/t" 3 "bad tag").1 rfl

theorem strEndsWith_append (a t : String) : strEndsWith (a ++ t) t = true := by
  unfold strEndsWith
  rw [strData_append, List.reverse_append]
  rw [List.take_left' (by rw [List.length_reverse])]
  simp

theorem beq_append_j2n_false (s m : String)
    (hs : strEndsWith s ".j2n" = false) : (s == m ++ ".j2n") = false := by
  cases hb : s == m ++ ".j2n"
  · rfl
  · have heq : s = m ++ ".j2n" := eq_of_beq hb
    rw [heq, strEndsWith_append] at hs
    exact absurd hs (by decide)

theorem contains_ignoredirs (n : String) (h : ignoredirs.contains n = true) :
    n = ".git" ∨ n = ".hg" ∨ n = ".svn" := by
  simpa [ignoredirs, List.contains] using h

theorem endsWithJ2n_ignoredirs (n : String) (h : ignoredirs.contains n = true) :
    endsWithJ2n n = false := by
  rcases contains_ignoredirs n h with h1 | h1 | h1 <;> subst h1 <;> decide

theorem strEndsWith_ignoredirs (n : String) (h : ignoredirs.contains n = true) :
    strEndsWith n ".j2n" = false := by
  rcases contains_ignoredirs n h with h1 | h1 | h1 <;> subst h1 <;> decide

theorem existsEntryL_pruneL (l : EntryList) (m : String) :
    existsEntryL (pruneL l) (m ++ ".j2n") = existsEntryL l (m ++ ".j2n") := by
  cases l with
  | nil => rfl
  | cons e rest =>
      have ih := existsEntryL_pruneL rest m
      cases e with
      | file n =>
          simp [pruneL, ignoredIsDir, pruneE, existsEntryL, Entry.nameOf, ih]
      | dir n ch =>
          cases hig : ignoredirs.contains n with
          | true =>
              have hmem : n ∈ ignoredirs := by simpa using hig
              have hne : (n == m ++ ".j2n") = false :=
                beq_append_j2n_false n m (strEndsWith_ignoredirs n hig)
              simp [pruneL, ignoredIsDir, hmem, existsEntryL, Entry.nameOf, hne, ih]
          | false =>
              have hmem : n ∉ ignoredirs := by simpa using hig
              simp [pruneL, ignoredIsDir, hmem, pruneE, existsEntryL, Entry.nameOf, ih]

mutual
theorem renderItem_pruneL {Ctx : Type} (cfg : J2Config) (eng : Engine Ctx)
    (ctx : Ctx) (fs : DestFS) (folder dest : String) (sib : EntryList)
    (e : Entry) (he : ignoredIsDir e = false) :
    renderItem cfg eng ctx fs folder dest (pruneL sib) (pruneE e) =
      renderItem cfg eng ctx fs folder dest sib e := by
  cases e with
  | file n =>
      unfold renderItem
      simp only [pruneE, Entry.nameOf, existsEntryL_pruneL]
  | dir n ch =>
      have hig : ignoredirs.contains n = false := by
        simpa [ignoredIsDir] using he
      unfold renderItem
      simp only [pruneE, Entry.nameOf, existsEntryL_pruneL]
      cases hj : endsWithJ2n n with
      | true => simp [hj]
      | false =>
          simp only [hj, hig, Bool.false_eq_true, if_false]
          generalize (if existsEntryL sib (n ++ ".j2n") = true
                      then render_file_name cfg eng ctx folder (n ++ ".j2n")
                      else Except.ok n) = S
          cases S with
          | error es => rfl
          | ok nm =>
              dsimp only
              rw [renderItems_pruneL cfg eng ctx fs (folder ++ osSep ++ n)
                    (dest ++ osSep ++ nm) ch ch]

theorem renderItems_pruneL {Ctx : Type} (cfg : J2Config) (eng : Engine Ctx)
    (ctx : Ctx) (fs : DestFS) (folder dest : String) (sib todo : EntryList) :
    renderItems cfg eng ctx fs folder dest (pruneL sib) (pruneL todo) =
      renderItems cfg eng ctx fs folder dest sib todo := by
  cases todo with
  | nil => rfl
  | cons e rest =>
      have ihrest := renderItems_pruneL cfg eng ctx fs folder dest sib rest
      cases hie : ignoredIsDir e with
      | true =>
          have h1 : pruneL (EntryList.cons e rest) = pruneL rest := by
            simp [pruneL, hie]
          have hskip : renderItem cfg eng ctx fs folder dest sib e = Run.ok [] := by
            cases e with
            | file n => simp [ignoredIsDir] at hie
            | dir n ch =>
                have hig : ignoredirs.contains n = true := by
                  simpa [ignoredIsDir] using hie
                have hmem : n ∈ ignoredirs := by simpa using hig
                unfold renderItem
                simp [Entry.nameOf, endsWithJ2n_ignoredirs n hig, hmem]
          rw [h1, ihrest]
          simp only [renderItems]
          rw [hskip, Run.seq_ok_nil]
      | false =>
          have h1 : pruneL (EntryList.cons e rest) =
              EntryList.cons (pruneE e) (pruneL rest) := by
            simp [pruneL, hie]
          rw [h1]
          simp only [renderItems]
          rw [renderItem_pruneL cfg eng ctx fs folder dest sib e hie, ihrest]
end

/-- C3 counterexample: a naming directive rendering to the text dot git
makes the walker create a destination directory named dot git, which is
in the ignore set, refuting the claim that no ignore-set-named directory
is ever created in the destination tree. -/
theorem c3_counterexample :
    render_folder_template cfg0 engGit () freshFS "/src" treeC3 "/dst" =
      Run.ok [Ev.mkdir "/dst", Ev.mkdir "/dst/.git"] ∧
    ".git" ∈ ignoredirs := by decide

/-- C3 (amended): source directories whose names are in the ignore set
are never descended into or mirrored: removing every such directory, at
any depth, from the source tree leaves the entire rendering trace
unchanged, so neither they nor anything beneath them produces any
destination entry.  (A destination directory with an ignore-set name can
still be created when a naming directive renders to such a name.) -/
theorem c3_ignored_dirs_pruned {Ctx : Type} (cfg : J2Config) (eng : Engine Ctx)
    (ctx : Ctx) (fs : DestFS) (folder : String) (entries : EntryList)
    (dest : String) :
    render_folder_template cfg eng ctx fs folder (pruneL entries) dest =
      render_folder_template cfg eng ctx fs folder entries dest := by
  unfold render_folder_template
  rw [renderItems_pruneL]

theorem destDirs_append (a b : List Ev) :
    destDirs (a ++ b) = destDirs a ++ destDirs b := by
  induction a with
  | nil => rfl
  | cons e rest ih => cases e <;> simp [destDirs, ih]

theorem destFiles_append (a b : List Ev) :
    destFiles (a ++ b) = destFiles a ++ destFiles b := by
  induction a with
  | nil => rfl
  | cons e rest ih => cases e <;> simp [destFiles, ih]

mutual
theorem renderItem_mirror {Ctx : Type} (cfg : J2Config) (eng : Engine Ctx)
    (ctx : Ctx) (folder dest : String) (sib : EntryList) (e : Entry)
    (hce : existsEntryL sib (e.nameOf ++ ".j2n") = false)
    (hne : entryNoDirective e = true)
    (heng : ∀ envc nmm, ∃ t, eng envc nmm ctx = Except.ok t) :
    (renderItem cfg eng ctx freshFS folder dest sib e).isOk = true ∧
    destDirs (renderItem cfg eng ctx freshFS folder dest sib e).events =
      mirrorDirsE dest e ∧
    destFiles (renderItem cfg eng ctx freshFS folder dest sib e).events =
      mirrorFilesE dest e := by
  cases e with
  | file n =>
      cases hj : endsWithJ2n n with
      | true =>
          have hri : renderItem cfg eng ctx freshFS folder dest sib (Entry.file n) =
              Run.ok [] := by
            unfold renderItem
            simp [Entry.nameOf, hj]
          rw [hri]
          simp [mirrorDirsE, mirrorFilesE, hj, Run.isOk, Run.events, destDirs, destFiles]
      | false =>
          have hcen : existsEntryL sib (n ++ ".j2n") = false := by
            simpa [Entry.nameOf] using hce
          obtain ⟨t, ht⟩ := heng
            { loader := { searchpath := folder :: cfg.TEMPLATEPATH, encoding := cfg.j2_encoding },
              trim_blocks := cfg.TRIM == 1, newline_sequence := cfg.j2_linesep } n
          have htf : render_file_template cfg eng ctx folder n (dest ++ osSep ++ n) =
              Run.ok [Ev.write (dest ++ osSep ++ n) (t ++ osLinesep)] := by
            simp [render_file_template, ht]
          have hri : renderItem cfg eng ctx freshFS folder dest sib (Entry.file n) =
              Run.ok [Ev.openW (dest ++ osSep ++ n),
                      Ev.write (dest ++ osSep ++ n) (t ++ osLinesep),
                      Ev.close (dest ++ osSep ++ n)] := by
            unfold renderItem
            simp [Entry.nameOf, hj, hcen, freshFS, htf, Run.seq]
          rw [hri]
          simp [mirrorDirsE, mirrorFilesE, hj, Run.isOk, Run.events, destDirs, destFiles]
  | dir n ch =>
      cases hj : endsWithJ2n n with
      | true =>
          have hri : renderItem cfg eng ctx freshFS folder dest sib (Entry.dir n ch) =
              Run.ok [] := by
            unfold renderItem
            simp [Entry.nameOf, hj]
          rw [hri]
          simp [mirrorDirsE, mirrorFilesE, hj, Run.isOk, Run.events, destDirs, destFiles]
      | false =>
          cases hig : ignoredirs.contains n with
          | true =>
              have hmem : n ∈ ignoredirs := by simpa using hig
              have hri : renderItem cfg eng ctx freshFS folder dest sib (Entry.dir n ch) =
                  Run.ok [] := by
                unfold renderItem
                simp [Entry.nameOf, hj, hmem]
              rw [hri]
              simp [mirrorDirsE, mirrorFilesE, hj, hmem, Run.isOk, Run.events, destDirs, destFiles]
          | false =>
              have hmem : n ∉ ignoredirs := by simpa using hig
              have hcen : existsEntryL sib (n ++ ".j2n") = false := by
                simpa [Entry.nameOf] using hce
              have hnech : listNoDirective ch ch = true := by
                simpa [entryNoDirective] using hne
              have hch := renderItems_mirror cfg eng ctx (folder ++ osSep ++ n)
                (dest ++ osSep ++ n) ch ch hnech heng
              cases hrch : renderItems cfg eng ctx freshFS (folder ++ osSep ++ n)
                  (dest ++ osSep ++ n) ch ch with
              | fatal es =>
                  rw [hrch] at hch
                  simp [Run.isOk] at hch
              | ok es =>
                  rw [hrch] at hch
                  simp only [Run.isOk, Run.events, true_and] at hch
                  have hed : ensureDest freshFS (dest ++ osSep ++ n) =
                      Run.ok [Ev.mkdir (dest ++ osSep ++ n)] := by
                    simp [ensureDest, freshFS, Run.seq]
                  have hri : renderItem cfg eng ctx freshFS folder dest sib (Entry.dir n ch) =
                      Run.ok (Ev.mkdir (dest ++ osSep ++ n) :: es) := by
                    unfold renderItem
                    simp [Entry.nameOf, hj, hmem, hcen, hed, hrch, Run.seq]
                  rw [hri]
                  simp [Run.isOk, Run.events, destDirs, destFiles, mirrorDirsE,
                    mirrorFilesE, hj, hmem, hch.1, hch.2]

theorem renderItems_mirror {Ctx : Type} (cfg : J2Config) (eng : Engine Ctx)
    (ctx : Ctx) (folder dest : String) (sib todo : EntryList)
    (hnd : listNoDirective sib todo = true)
    (heng : ∀ envc nmm, ∃ t, eng envc nmm ctx = Except.ok t) :
    (renderItems cfg eng ctx freshFS folder dest sib todo).isOk = true ∧
    destDirs (renderItems cfg eng ctx freshFS folder dest sib todo).events =
      mirrorDirsL dest todo ∧
    destFiles (renderItems cfg eng ctx freshFS folder dest sib todo).events =
      mirrorFilesL dest todo := by
  cases todo with
  | nil =>
      simp [renderItems, mirrorDirsL, mirrorFilesL, Run.isOk, Run.events, destDirs, destFiles]
  | cons e rest =>
      obtain ⟨⟨hce, hne⟩, hrest⟩ :
          (existsEntryL sib (e.nameOf ++ ".j2n") = false ∧ entryNoDirective e = true) ∧
            listNoDirective sib rest = true := by
        simpa [listNoDirective, Bool.and_eq_true, Bool.not_eq_true'] using hnd
      have hi := renderItem_mirror cfg eng ctx folder dest sib e hce hne heng
      have hr := renderItems_mirror cfg eng ctx folder dest sib rest hrest heng
      cases hri : renderItem cfg eng ctx freshFS folder dest sib e with
      | fatal es =>
          rw [hri] at hi
          simp [Run.isOk] at hi
      | ok es =>
          cases hrr : renderItems cfg eng ctx freshFS folder dest sib rest with
          | fatal es2 =>
              rw [hrr] at hr
              simp [Run.isOk] at hr
          | ok es2 =>
              rw [hri] at hi
              rw [hrr] at hr
              simp only [Run.isOk, Run.events, true_and] at hi hr
              have hall : renderItems cfg eng ctx freshFS folder dest sib
                  (EntryList.cons e rest) = Run.ok (es ++ es2) := by
                simp only [renderItems]
                rw [hri, hrr]
                rfl
              rw [hall]
              simp [Run.isOk, Run.events, destDirs_append, destFiles_append,
                mirrorDirsL, mirrorFilesL, hi.1, hi.2, hr.1, hr.2]
end

/-- C2: for a source tree containing no naming directives, a clean-run
tree render succeeds and the destination directory and file paths are
exactly the mirror of the source tree, pruned of ignore-set directories
and suffix-matching entries, with every remaining entry keeping its
source name. -/
theorem c2_no_directives_mirror {Ctx : Type} (cfg : J2Config) (eng : Engine Ctx)
    (ctx : Ctx) (folder : String) (entries : EntryList) (dest : String)
    (hnd : noDirectivesL entries = true)
    (heng : ∀ envc nmm, ∃ t, eng envc nmm ctx = Except.ok t) :
    (render_folder_template cfg eng ctx freshFS folder entries dest).isOk = true ∧
    destDirs (render_folder_template cfg eng ctx freshFS folder entries dest).events =
      dest :: mirrorDirsL dest entries ∧
    destFiles (render_folder_template cfg eng ctx freshFS folder entries dest).events =
      mirrorFilesL dest entries := by
  have hnd2 : listNoDirective entries entries = true := by
    simpa [noDirectivesL] using hnd
  have hit := renderItems_mirror cfg eng ctx folder dest entries entries hnd2 heng
  unfold render_folder_template
  have hed : ensureDest freshFS dest = Run.ok [Ev.mkdir dest] := by
    simp [ensureDest, freshFS, Run.seq]
  rw [hed]
  cases hri : renderItems cfg eng ctx freshFS folder dest entries entries with
  | fatal es =>
      rw [hri] at hit
      simp [Run.isOk] at hit
  | ok es =>
      rw [hri] at hit
      simp only [Run.isOk, Run.events, true_and] at hit
      simp [Run.seq, Run.isOk, Run.events, destDirs, destFiles, hit.1, hit.2]

theorem c2_witness :
    (render_folder_template cfg0 engConst () freshFS "/src" treeC2 "/dst").isOk = true ∧
    destDirs (render_folder_template cfg0 engConst () freshFS "/src" treeC2 "/dst").events =
      "/dst" :: mirrorDirsL "/dst" treeC2 ∧
    destFiles (render_folder_template cfg0 engConst () freshFS "/src" treeC2 "/dst").events =
      mirrorFilesL "/dst" treeC2 :=
  c2_no_directives_mirror cfg0 engConst () "/src" treeC2 "/dst" (by decide)
    (fun _ _ => ⟨"out", rfl⟩)

end J2
